import Mathlib

/-!
# Verification of `pac-proxy-agent` (`src/agent.ts`)

Shallow embedding of the `PacProxyAgent` class from `src/agent.ts`:
the constructor, `loadPacFile`, `loadResolver` and the `callback`
(target-URL construction, directive parsing and dispatch).

External collaborators (Node builtins and npm packages that are not part of
this repository) are embedded as follows:

* the sha1 hashing done via `crypto` — an abstract digest function parameter
  `sha1 : String → String`;
* `createPacResolver(code, opts)` — an abstract evaluator parameter
  `compile : String → Except JsError Resolver`, which may throw;
* `getUri` / `getRawBody` — a `PacFetch` value describing the outcome of
  the two awaited calls of `loadPacFile`;
* `url.format` / `url.parse` (Node legacy url module) — modelled by
  `formatUrl` and `urlParseObj`, following the documented behaviour of the
  legacy url module on the inputs this program constructs.

JavaScript peculiarities that matter to the embedding are modelled
explicitly: truthiness of strings (only `""` is falsy), strict equality
between values of different runtime types (always `false`), `undefined`
turning into the string `"undefined"` under string concatenation, and
`String.prototype.substring` clamping negative indices to `0`.
-/

namespace PacProxy

/-- A JavaScript runtime value, as far as this program distinguishes them. -/
inductive JsVal where
  | str (s : String)
  | num (n : Int)
  | boolV (b : Bool)
  | nullV
  | undefinedV
  deriving DecidableEq, Repr

/-- JavaScript strict equality (`===`) on `JsVal`: values of different
runtime types are never strictly equal. -/
def jsStrictEq : JsVal → JsVal → Bool
  | .str a, .str b => a == b
  | .num a, .num b => a == b
  | .boolV a, .boolV b => a == b
  | .nullV, .nullV => true
  | .undefinedV, .undefinedV => true
  | _, _ => false

/-- A thrown JavaScript error: an optional `code` property (string codes
such as `"ENOTMODIFIED"`; `none` models an absent/`undefined` code) and a
message. -/
structure JsError where
  code : Option String
  message : String
  deriving DecidableEq, Repr

/-- The `code` property of an error as a `JsVal` (`undefined` when absent). -/
def JsError.codeVal (e : JsError) : JsVal :=
  match e.code with
  | some s => .str s
  | none => .undefinedV

/-- An opaque compiled PAC resolver (`ReturnType<typeof createPacResolver>`).
We only ever compare resolvers for identity, so a tag suffices. -/
structure Resolver where
  tag : Nat
  deriving DecidableEq, Repr

/-- Options bag fields read by the constructor (`opts.filename`). The rest
of the options bag is passed through opaquely and is modelled separately
(`JsObj`) where the dispatcher merges it. -/
structure AgentOptions where
  filename : Option String
  deriving DecidableEq, Repr

/-- The mutable fields of a `PacProxyAgent` instance:
`uri`, `opts`, `cache` (the get-uri stream handle, opaque), `resolver`,
`resolverHash`. -/
structure AgentState where
  uri : String
  opts : AgentOptions
  cache : Option Nat
  resolver : Option Resolver
  resolverHash : String
  deriving DecidableEq, Repr

/-- ASCII lowercasing of one character (enough for the `pac+` prefix
regex flag `/i` and hostname canonicalisation on the inputs this
program handles). -/
def lowerChar (c : Char) : Char :=
  if 'A' ≤ c ∧ c ≤ 'Z' then Char.ofNat (c.toNat + 32) else c

/-- ASCII lowercasing of a string. -/
def lowerStr (s : String) : String := String.mk (s.data.map lowerChar)

/-- Split a character list at every character satisfying `p` (the
separator characters are dropped; empty pieces are kept), the semantics
of JavaScript `String.prototype.split` with a single-character separator,
and of splitting at each whitespace character. -/
def splitOnPred (p : Char → Bool) : List Char → List (List Char)
  | [] => [[]]
  | c :: rest =>
    if p c then [] :: splitOnPred p rest
    else match splitOnPred p rest with
      | [] => [[c]]
      | g :: gs => (c :: g) :: gs

/-- JavaScript `String.prototype.trim`: drop leading and trailing
whitespace. -/
def jsTrim (s : String) : String :=
  String.mk (((s.data.dropWhile Char.isWhitespace).reverse.dropWhile
    Char.isWhitespace).reverse)

/-- The uri.replace call with the anchored, case-insensitive regex: it
matches iff the first four characters case-fold to `pac+`; replacing the
match with the empty string drops them. A single leading occurrence is
removed. -/
def stripPacMarker (uri : String) : String :=
  if (uri.data.take 4).map lowerChar = "pac+".data then String.mk (uri.data.drop 4)
  else uri

/-- The `PacProxyAgent` constructor (agent.ts lines 40–55): strips the
`pac+` prefix from the uri, clears the cache/resolver state, and defaults
`opts.filename` to the *original* uri when the caller supplied none
(`if (!this.opts.filename)`: an empty string is falsy and is also
replaced). -/
def mkPacProxyAgent (uri : String) (opts : AgentOptions) : AgentState :=
  { uri := stripPacMarker uri
    opts := { filename :=
      match opts.filename with
      | some f => if f = "" then some uri else some f
      | none => some uri }
    cache := none
    resolver := none
    resolverHash := "" }

/-- Outcome of the two awaited external calls inside `loadPacFile`
(`getUri(this.uri, { cache: this.cache })` and `getRawBody(rs)`):
either `getUri` rejects, or it yields a stream (an opaque token) and
`getRawBody` rejects, or both succeed and yield the PAC source text. -/
inductive PacFetch where
  | getUriErr (e : JsError)
  | bodyErr (tok : Nat) (e : JsError)
  | ok (tok : Nat) (code : String)
  deriving DecidableEq, Repr

/-- Observable calls to external collaborators, used to state the
caching/idempotence claims: `getUriCall` is the loader fetch being issued,
`compileCall` is `createPacResolver` being invoked. -/
inductive Event where
  | getUriCall
  | compileCall
  deriving DecidableEq, Repr

instance : DecidableEq (Except JsError Resolver) := fun a b =>
  match a, b with
  | .error e, .error f => decidable_of_iff (e = f) (by simp)
  | .ok r, .ok s => decidable_of_iff (r = s) (by simp)
  | .error _, .ok _ => isFalse (by simp)
  | .ok _, .error _ => isFalse (by simp)

/-- Result of a `loadResolver` run: the post-state, the returned value or
thrown error, and the trace of external calls made. -/
structure LoadResult where
  state : AgentState
  result : Except JsError Resolver
  events : List Event
  deriving DecidableEq, Repr

/-- `loadPacFile` (agent.ts lines 108–119): issue the fetch; on stream
success store the stream handle in `this.cache`, then read the body. -/
def loadPacFile (fetch : PacFetch) (st : AgentState) :
    AgentState × Except JsError String × List Event :=
  match fetch with
  | .getUriErr e => (st, .error e, [.getUriCall])
  | .bodyErr tok e => ({ st with cache := some tok }, .error e, [.getUriCall])
  | .ok tok code => ({ st with cache := some tok }, .ok code, [.getUriCall])

/-- The `try` block of `loadResolver` (agent.ts lines 66–90): fetch the
PAC text, hash it, reuse the cached resolver when a resolver exists and
the stored hash matches, otherwise compile and store resolver and hash. -/
def loadResolverTry (sha1 : String → String)
    (compile : String → Except JsError Resolver)
    (fetch : PacFetch) (st : AgentState) : LoadResult :=
  match loadPacFile fetch st with
  | (st1, .error e, evs) => ⟨st1, .error e, evs⟩
  | (st1, .ok code, evs) =>
    let hash := sha1 code
    match st1.resolver with
    | some r =>
      if st1.resolverHash = hash then ⟨st1, .ok r, evs⟩
      else
        match compile code with
        | .error e => ⟨st1, .error e, evs ++ [.compileCall]⟩
        | .ok r' =>
          ⟨{ st1 with resolver := some r', resolverHash := hash },
            .ok r', evs ++ [.compileCall]⟩
    | none =>
      match compile code with
      | .error e => ⟨st1, .error e, evs ++ [.compileCall]⟩
      | .ok r' =>
        ⟨{ st1 with resolver := some r', resolverHash := hash },
          .ok r', evs ++ [.compileCall]⟩

/-- The `catch` guard of `loadResolver` (agent.ts line 92), verbatim:
`this.resolver` conjoined with the chained comparison of `err.code`,
the ENOTMODIFIED literal and `err.code` again. JavaScript
parses the chained comparison left-associatively, so this is
a first strict comparison of `err.code` against the ENOTMODIFIED literal,
whose boolean result is then strictly compared
with the (string or undefined) `code` property. -/
def notModifiedGuard (st : AgentState) (e : JsError) : Bool :=
  st.resolver.isSome &&
    jsStrictEq (.boolV (jsStrictEq e.codeVal (.str "ENOTMODIFIED"))) e.codeVal

/-- `loadResolver` (agent.ts lines 64–100): run the `try` block; on a
thrown error, return the cached resolver if the `catch` guard accepts,
otherwise rethrow. -/
def loadResolver (sha1 : String → String)
    (compile : String → Except JsError Resolver)
    (fetch : PacFetch) (st : AgentState) : LoadResult :=
  match loadResolverTry sha1 compile fetch st with
  | ⟨st1, .error e, evs⟩ =>
    match st1.resolver, notModifiedGuard st1 e with
    | some r, true => ⟨st1, .ok r, evs⟩
    | _, _ => ⟨st1, .error e, evs⟩
  | ok => ok

/-- The JavaScript indexOf call locating a question mark: index of the
first one, `-1` when absent. -/
def jsIndexOfQuestion (s : String) : Int :=
  match s.data.findIdx? (· = '?') with
  | some n => (n : Int)
  | none => -1

/-- JavaScript `String.prototype.substring(a, b)`: both indices are clamped
into `[0, length]` and swapped when out of order. The one-argument form
`s.substring(a)` is `jsSubstring s a s.length`. -/
def jsSubstring (s : String) (a b : Int) : String :=
  let len : Int := s.data.length
  let a' := (max 0 (min a len)).toNat
  let b' := (max 0 (min b len)).toNat
  let lo := min a' b'
  let hi := max a' b'
  String.mk ((s.data.drop lo).take (hi - lo))

/-- The fields of the object handed to `url.format` by `callback`
(agent.ts lines 145–157). `port = none` models the explicit `null`
(protocol-default port); `search = none` models `undefined`. -/
structure UrlParts where
  protocol : String
  hostname : String
  port : Option Nat
  pathname : String
  search : Option String
  deriving DecidableEq, Repr

/-- The `url` computation of `callback` (agent.ts lines 136–157), verbatim
including its `if (firstQuestion === -1)` guard: the path/search split is
performed exactly when `req.path` contains no question mark (in which case
`substring(-1)` yields the whole string and `substring(0, -1)` yields
the empty string), and a path containing a question mark is left whole
with `search` undefined.
`port` is `null` when it equals the protocol default (`defaultPort ==
opts.port`). -/
def buildUrlParts (secureEndpoint : Bool) (host : String) (port : Nat)
    (reqPath : String) : UrlParts :=
  let defaultPort : Nat := if secureEndpoint then 443 else 80
  let firstQuestion := jsIndexOfQuestion reqPath
  let pathSearch : String × Option String :=
    if firstQuestion = -1 then
      (jsSubstring reqPath 0 firstQuestion,
        some (jsSubstring reqPath firstQuestion reqPath.length))
    else (reqPath, none)
  { protocol := if secureEndpoint then "https:" else "http:"
    hostname := host
    port := if defaultPort = port then none else some port
    pathname := pathSearch.1
    search := pathSearch.2 }

/-- Pathname escaping of legacy Node url.format:
`pathname.replace(/[?#]/g, encodeURIComponent)`. -/
def escapePathChar (c : Char) : List Char :=
  if c = '?' then "%3F".data else if c = '#' then "%23".data else [c]

def escapePathname (s : String) : String :=
  String.mk (s.data.map escapePathChar).flatten

/-- The search replace step of legacy `url.format`: a string pattern
replaces only the first hash mark, substituting the three characters
`%23`. -/
def replaceFirstHash (s : String) : String :=
  match s.data.findIdx? (· = '#') with
  | none => s
  | some i =>
    String.mk (s.data.take i ++ "%23".data ++ s.data.drop (i + 1))

/-- Does the string start with the given character? -/
def headIs (c : Char) (s : String) : Bool :=
  match s.data with
  | c' :: _ => c' = c
  | [] => false

/-- The search component emitted by legacy `url.format`: an absent or
empty search contributes nothing; otherwise a question mark is prefixed when
missing. -/
def searchComponent : Option String → String
  | none => ""
  | some s =>
    if s = "" then ""
    else
      let s' := replaceFirstHash s
      if headIs '?' s' then s' else "?" ++ s'

/-- The `:port` fragment legacy `url.format` appends to the host when it
was built from `hostname`: appended only when `port` is truthy (so `null`
and `0` contribute nothing). -/
def portComponent : Option Nat → String
  | none => ""
  | some p => if p = 0 then "" else ":" ++ toString p

/-- Modelled behaviour of legacy Node url.format on the objects this
program builds (slashed protocol, `host: null`, `hostname` set, no auth
and no hash): protocol, two slashes, host, pathname and search in
sequence, with the
hostname bracketed when it contains a colon, the port appended when truthy,
`[?#]` escaped in the pathname, a slash prefixed to a nonempty relative
pathname, and the search component as in `searchComponent`. -/
def formatUrl (u : UrlParts) : String :=
  let hostCore := if u.hostname.data.contains ':' then "[" ++ u.hostname ++ "]" else u.hostname
  let host := "//" ++ hostCore ++ portComponent u.port
  let p0 := escapePathname u.pathname
  let pathname := if p0 ≠ "" && !headIs '/' p0 then "/" ++ p0 else p0
  u.protocol ++ host ++ pathname ++ searchComponent u.search

/-- agent.ts lines 166–169, the falsy-result default — an absent
(undefined/null) or empty-string PAC result is replaced by `"DIRECT"`. -/
def directiveString : Option String → String
  | none => "DIRECT"
  | some s => if s = "" then "DIRECT" else s

/-- agent.ts lines 171–174:
`String(proxy).trim().split(/\s*;\s*/g).filter(Boolean)`. On a trimmed
string, splitting on the regex `\s*;\s*` (a semicolon with surrounding
whitespace absorbed) yields the same pieces as splitting on `;` and
trimming each piece, because every whitespace run at a piece boundary is
adjacent to a semicolon or to the (already trimmed) ends of the string.
`filter(Boolean)` drops empty strings, the only falsy strings. -/
def candidates (s : String) : List String :=
  (((splitOnPred (· = ';') (jsTrim s).data).map String.mk).map jsTrim).filter (· ≠ "")

/-- `first.split(/\s+/)` (agent.ts line 180) on the trimmed, nonempty
candidate strings this program produces: split at whitespace runs, no
empty tokens. -/
def wsSplit (s : String) : List String :=
  ((splitOnPred Char.isWhitespace s.data).map String.mk).filter (· ≠ "")

/-- A JavaScript object as an association list; later bindings override
earlier ones (the semantics of object spread). -/
abbrev JsObj := List (String × JsVal)

/-- Property lookup: the last binding of the key wins; `none` means the
property is absent (not merely `null`). -/
def objGet (o : JsObj) (k : String) : Option JsVal :=
  (o.reverse.find? (fun kv => kv.1 == k)).map (·.2)

/-- Object spread `{ ...a, ...b }`: every own enumerable property of `b`
(including ones holding `null`) overrides the same-named property of `a`. -/
def spreadObj (a b : JsObj) : JsObj := a ++ b

/-- The host/port split legacy `url.parse` performs on the authority of
`scheme://hostport`: a trailing all-digit run after the last colon is the
port; otherwise there is no port. -/
def splitHostPort (hp : String) : String × Option String :=
  let cs := hp.data
  match cs.reverse.findIdx? (· = ':') with
  | none => (hp, none)
  | some rIdx =>
    let i := cs.length - 1 - rIdx
    let portCs := cs.drop (i + 1)
    if portCs ≠ [] ∧ portCs.all Char.isDigit then
      (String.mk (cs.take i), some (String.mk portCs))
    else (hp, none)

/-- The own enumerable property names of a legacy `Url` object — the keys
that `{ ...parse(proxyURL) }` spreads, every one of them present even when
its value is `null`. -/
def urlKeys : List String :=
  ["protocol", "slashes", "auth", "host", "port", "hostname", "hash",
    "search", "query", "pathname", "path", "href"]

/-- Modelled behaviour of the legacy Node url.parse call applied to
`scheme://hostport` for the proxy URLs the dispatcher constructs (agent.ts lines
195–197): all twelve `Url` fields are own properties; absent components
are `null`; the hostname is lowercased; the parser inserts a root
pathname. Only the key set and the `protocol`/`auth`/`host`/`port`/
`hostname` values are relied on by the theorems below. -/
def urlParseObj (scheme hostport : String) : JsObj :=
  let hp := splitHostPort hostport
  let hostname := lowerStr hp.1
  let host := hostname ++ (match hp.2 with | some ps => ":" ++ ps | none => "")
  [ ("protocol", .str (scheme ++ ":")),
    ("slashes", .boolV true),
    ("auth", .nullV),
    ("host", .str host),
    ("port", match hp.2 with | some ps => JsVal.str ps | none => JsVal.nullV),
    ("hostname", .str hostname),
    ("hash", .nullV),
    ("search", .nullV),
    ("query", .nullV),
    ("pathname", .str "/"),
    ("path", .str "/"),
    ("href", .str (scheme ++ "://" ++ host ++ "/")) ]

/-- The value `callback` produces after directive dispatch: a direct
socket (`tls.connect` / `net.connect`), a SOCKS agent constructed from a
URL string, or an HTTP(S) proxy agent constructed from a merged options
object. -/
inductive Outcome where
  | direct (secure : Bool)
  | socksAgent (url : String)
  | httpProxyAgent (opts : JsObj)
  | httpsProxyAgent (opts : JsObj)
  deriving DecidableEq, Repr

instance : DecidableEq (Except JsError Outcome) := fun a b =>
  match a, b with
  | .error e, .error f => decidable_of_iff (e = f) (by simp)
  | .ok r, .ok s => decidable_of_iff (r = s) (by simp)
  | .error _, .ok _ => isFalse (by simp)
  | .ok _, .error _ => isFalse (by simp)

/-- The `TypeError` thrown by `first.split(...)` when the candidate list
is empty and `proxies[0]` is `undefined`. -/
def typeErrorUndefined : JsError :=
  ⟨none, "Cannot read properties of undefined"⟩

/-- The Error thrown with message Unknown proxy type (agent.ts line 204). -/
def unknownProxyType (ty : String) : JsError :=
  ⟨none, "Unknown proxy type: " ++ ty⟩

/-- Directive parsing and dispatch of `callback` (agent.ts lines 166–204):
default a falsy PAC result to `"DIRECT"`, split into candidates, take the
first, split it on whitespace into `type` and argument, then dispatch:
`DIRECT` connects directly (TLS iff the endpoint is secure); `SOCKS`
builds a SOCKS agent from the socks scheme applied to parts[1] (a missing argument
stringifies as `"undefined"`); `PROXY`/`HTTPS` parse
a proxy URL whose scheme is https for an HTTPS directive and http for a
PROXY directive, followed by parts[1]; merge
`{ ...this.opts, ...parse(proxyURL) }` and build an `HttpsProxyAgent`
when `secureEndpoint` is set, an `HttpProxyAgent` otherwise; any other
type throws `Unknown proxy type`. -/
def dispatchProxy (baseOpts : JsObj) (secureEndpoint : Bool)
    (proxyResult : Option String) : Except JsError Outcome :=
  let proxies := candidates (directiveString proxyResult)
  match proxies.head? with
  | none => .error typeErrorUndefined
  | some first =>
    let parts := wsSplit first
    let ty := parts.headD ""
    if ty = "DIRECT" then .ok (.direct secureEndpoint)
    else if ty = "SOCKS" then
      .ok (.socksAgent ("socks://" ++ parts.getD 1 "undefined"))
    else if ty = "PROXY" ∨ ty = "HTTPS" then
      let scheme := if ty = "HTTPS" then "https" else "http"
      let proxyOpts := spreadObj baseOpts (urlParseObj scheme (parts.getD 1 "undefined"))
      .ok (if secureEndpoint then .httpsProxyAgent proxyOpts
        else .httpProxyAgent proxyOpts)
    else .error (unknownProxyType ty)

/-! ## Fixtures for concrete runs

A toy digest standing in for the external sha1 collaborator in concrete
runs (the theorems below quantify over the digest function; witnesses
need an executable instance, and the digest being external means any
function is a legal instantiation). -/

def lenSha : String → String := fun s => toString s.data.length

def c1Err : JsError := ⟨some "ENOTMODIFIED", "source not modified"⟩

def c1State : AgentState :=
  { uri := "http://example.com/proxy.pac"
    opts := ⟨some "proxy.pac"⟩
    cache := some 0
    resolver := some ⟨1⟩
    resolverHash := "h0" }

def c3St : AgentState :=
  { uri := "http://example.com/proxy.pac"
    opts := ⟨some "proxy.pac"⟩
    cache := none
    resolver := some ⟨1⟩
    resolverHash := "1" }

def c3Compile : String → Except JsError Resolver :=
  fun s => .ok ⟨s.data.length + 10⟩

def c8St : AgentState :=
  { uri := "http://example.com/proxy.pac"
    opts := ⟨some "proxy.pac"⟩
    cache := none
    resolver := some ⟨1⟩
    resolverHash := "1" }

def c8Err : JsError := ⟨none, "SyntaxError: Unexpected token"⟩

def c8CompileFail : String → Except JsError Resolver := fun _ => .error c8Err

def c5Base : JsObj := [("auth", JsVal.str "user:pass"), ("keepAlive", JsVal.boolV true)]

def c9St : AgentState :=
  { uri := "data:,FindProxyForURL"
    opts := ⟨some "data:,FindProxyForURL"⟩
    cache := none
    resolver := none
    resolverHash := "" }

def c9Run : LoadResult :=
  loadResolver lenSha (fun _ => .ok ⟨1⟩) (.ok 1 "function FindProxyForURL()") c9St

/-- The overlapping second call: its fetch was issued while the first
call was outstanding and returned the same content, but its synchronous
continuation (hash, check, possibly compile) runs only after the first
call completed, on the state the first call left behind — the JavaScript
event loop never interleaves the synchronous blocks themselves. -/
def c9Run2 : LoadResult :=
  loadResolver lenSha (fun _ => .ok ⟨1⟩) (.ok 2 "function FindProxyForURL()")
    c9Run.state

/-- A cooperative interleaving of two overlapping `loadResolver` calls on
one shared agent, tagged by task id: each call suspends at its awaited
fetch, so both fetches are issued before the first continuation runs; the
second continuation then hits the fingerprint short-circuit and performs
no compile of its own. -/
def c9Interleaving : List (Nat × Event) :=
  [(0, .getUriCall), (1, .getUriCall), (0, .compileCall)]

/-! ## Helper lemmas -/

/-- The `catch` guard of `loadResolver` never accepts: the chained strict
comparison evaluates a boolean against a string-or-undefined `code`
property, and values of different runtime types are never strictly
equal. -/
theorem notModifiedGuard_eq_false (st : AgentState) (e : JsError) :
    notModifiedGuard st e = false := by
  cases h : e.code with
  | none =>
    simp [notModifiedGuard, JsError.codeVal, h, jsStrictEq]
  | some s =>
    simp [notModifiedGuard, JsError.codeVal, h, jsStrictEq]

/-! ## Claims -/

/-- C1. The spec claims that when a resolver is cached and the loader
fails with the content-unchanged signal (error code `ENOTMODIFIED`),
`loadResolver` returns the cached resolver instead of propagating the
error. The code (agent.ts line 92) guards the reuse branch with
`this.resolver && err.code === `ENOTMODIFIED` === err.code`; the chained
strict equality compares the boolean result of the first comparison with
the string-or-undefined `code` property, which is false for every error,
so the reuse branch is unreachable (first conjunct) and an `ENOTMODIFIED`
failure propagates as an error while the cached resolver and fingerprint
stay in place (second conjunct). This contradicts the debug message of
that very branch and the sibling implementation in the repository, which
tests the code property with a simple loose equality — a slip in the
code, not in the
spec. -/
theorem c1_enotmodified_error_propagates :
    (∀ (st : AgentState) (e : JsError), notModifiedGuard st e = false) ∧
    loadResolver lenSha c3Compile (.getUriErr c1Err) c1State =
      ⟨c1State, .error c1Err, [.getUriCall]⟩ := by
  refine ⟨notModifiedGuard_eq_false, ?_⟩
  rfl

/-- C2. The spec claims the URL handed to the PAC resolver splits the
request path at the first question mark (pathname before it, query after
it), and that a path without a question mark yields no query component.
The code (agent.ts line 141) guards the split with
`if (firstQuestion === -1)` — inverted: a path containing a question mark
is left whole (its question mark is then escaped to `%3F` by the legacy
url formatter, and no query component is produced), while a path without
one is degenerately split into an empty pathname and a query equal to the
whole path. Both evaluations below exhibit this; the spec is clearly the
intent (the split block is purposeless as written) and the code a slip. -/
theorem c2_query_split_is_inverted :
    (buildUrlParts false "example.com" 80 "/foo?bar=1").pathname = "/foo?bar=1" ∧
    (buildUrlParts false "example.com" 80 "/foo?bar=1").search = none ∧
    formatUrl (buildUrlParts false "example.com" 80 "/foo?bar=1") =
      "http://example.com/foo%3Fbar=1" ∧
    (buildUrlParts false "example.com" 80 "/foo").pathname = "" ∧
    (buildUrlParts false "example.com" 80 "/foo").search = some "/foo" ∧
    formatUrl (buildUrlParts false "example.com" 80 "/foo") =
      "http://example.com?/foo" := by
  refine ⟨?_, ?_, ?_, ?_, ?_, ?_⟩ <;> decide

/-- C10. The constructor strips a single leading, case-insensitive
`pac+` prefix from the uri to obtain the fetch source (and leaves a uri
without the prefix unchanged), while the filename label defaulted into
the options when the caller supplies none is the original uri, prefix
included. -/
theorem c10_constructor_prefix_and_filename (uri : String) (opts : AgentOptions)
    (h : opts.filename = none) :
    ((uri.data.take 4).map lowerChar = "pac+".data →
      (mkPacProxyAgent uri opts).uri = String.mk (uri.data.drop 4)) ∧
    ((uri.data.take 4).map lowerChar ≠ "pac+".data →
      (mkPacProxyAgent uri opts).uri = uri) ∧
    (mkPacProxyAgent uri opts).opts.filename = some uri := by
  refine ⟨fun hp => ?_, fun hp => ?_, ?_⟩
  · show stripPacMarker uri = _
    unfold stripPacMarker
    rw [if_pos hp]
  · show stripPacMarker uri = _
    unfold stripPacMarker
    rw [if_neg hp]
  · simp [mkPacProxyAgent, h]

/-- Witness for C10: a prefixed uri in mixed case is stripped once (also
when the remainder itself starts with `pac+`), and the defaulted filename
keeps the prefix. -/
theorem c10_witness :
    (mkPacProxyAgent "PAC+ftp://example.com/proxy.pac" ⟨none⟩).uri =
      "ftp://example.com/proxy.pac" ∧
    (mkPacProxyAgent "PAC+ftp://example.com/proxy.pac" ⟨none⟩).opts.filename =
      some "PAC+ftp://example.com/proxy.pac" ∧
    (mkPacProxyAgent "pac+pac+file:///a.pac" ⟨none⟩).uri = "pac+file:///a.pac" := by
  have h1 := c10_constructor_prefix_and_filename "PAC+ftp://example.com/proxy.pac" ⟨none⟩ rfl
  have h2 := c10_constructor_prefix_and_filename "pac+pac+file:///a.pac" ⟨none⟩ rfl
  exact ⟨(h1.1 (by decide)).trans (by decide), h1.2.2,
    (h2.1 (by decide)).trans (by decide)⟩

/-- C3. With a resolver cached under fingerprint `h`, a load whose fetch
returns bytes digesting to `h` returns the cached resolver object without
invoking the script evaluator (no `compileCall` event, state untouched
apart from the fetch cache handle), while bytes digesting differently
invoke the evaluator and replace both the stored resolver and the stored
fingerprint. Feeding content `A` then `A` again therefore does not
recompile, and `A` then `B` with differing digests does. -/
theorem c3_fingerprint_short_circuit (sha1 : String → String)
    (compile : String → Except JsError Resolver) (st : AgentState)
    (tok : Nat) (code : String) (r : Resolver) (hres : st.resolver = some r) :
    (st.resolverHash = sha1 code →
      loadResolver sha1 compile (.ok tok code) st =
        ⟨{ st with cache := some tok }, .ok r, [.getUriCall]⟩) ∧
    (st.resolverHash ≠ sha1 code → ∀ r2, compile code = .ok r2 →
      loadResolver sha1 compile (.ok tok code) st =
        ⟨{ st with cache := some tok, resolver := some r2, resolverHash := sha1 code },
          .ok r2, [.getUriCall, .compileCall]⟩) := by
  constructor
  · intro hh
    simp [loadResolver, loadResolverTry, loadPacFile, hres, hh]
  · intro hh r2 hc
    simp [loadResolver, loadResolverTry, loadPacFile, hres, hh, hc]

/-- Witness for C3: under the digest `lenSha`, refetching one-character
content `A` against stored fingerprint `1` reuses resolver `1` without a
compile event; fetching two-character content `BB` (fingerprint `2`)
compiles and stores resolver `12` with the new fingerprint. -/
theorem c3_witness :
    loadResolver lenSha c3Compile (.ok 5 "A") c3St =
      ⟨{ c3St with cache := some 5 }, .ok ⟨1⟩, [.getUriCall]⟩ ∧
    loadResolver lenSha c3Compile (.ok 5 "BB") c3St =
      ⟨{ c3St with cache := some 5, resolver := some ⟨12⟩, resolverHash := "2" },
        .ok ⟨12⟩, [.getUriCall, .compileCall]⟩ := by
  have h1 := c3_fingerprint_short_circuit lenSha c3Compile c3St 5 "A" ⟨1⟩ rfl
  have h2 := c3_fingerprint_short_circuit lenSha c3Compile c3St 5 "BB" ⟨1⟩ rfl
  exact ⟨h1.1 (by decide), h2.2 (by decide) ⟨12⟩ rfl⟩

/-- C4. When the first usable candidate of a PAC result has a type token
other than `DIRECT`, `SOCKS`, `PROXY`, `HTTPS`, the dispatch fails with
the unknown-proxy-type error and produces no outcome of any kind — in
particular no silent downgrade to a direct connection. -/
theorem c4_unknown_type_fails (baseOpts : JsObj) (secure : Bool)
    (proxyResult : Option String) (first ty : String) (rest : List String)
    (hfirst : (candidates (directiveString proxyResult)).head? = some first)
    (hparts : wsSplit first = ty :: rest)
    (h1 : ty ≠ "DIRECT") (h2 : ty ≠ "SOCKS") (h3 : ty ≠ "PROXY")
    (h4 : ty ≠ "HTTPS") :
    dispatchProxy baseOpts secure proxyResult = .error (unknownProxyType ty) ∧
    ∀ o : Outcome, dispatchProxy baseOpts secure proxyResult ≠ .ok o := by
  have hmain : dispatchProxy baseOpts secure proxyResult =
      .error (unknownProxyType ty) := by
    simp [dispatchProxy, hfirst, hparts, h1, h2, h3, h4]
  exact ⟨hmain, fun o ho => by rw [hmain] at ho; exact Except.noConfusion ho⟩

/-- Witness for C4: the PAC result `BOGUS 1.2.3.4:80` makes resolution
fail with the unknown-proxy-type error. -/
theorem c4_witness :
    dispatchProxy [] false (some "BOGUS 1.2.3.4:80") =
      .error (unknownProxyType "BOGUS") :=
  (c4_unknown_type_fails [] false (some "BOGUS 1.2.3.4:80") "BOGUS 1.2.3.4:80"
    "BOGUS" ["1.2.3.4:80"] (by decide) (by decide) (by decide) (by decide)
    (by decide) (by decide)).1

/-- C6. After trimming, splitting on semicolons with surrounding
whitespace absorbed and discarding empty candidates, only the first
remaining candidate determines the dispatch outcome: two non-empty PAC
results with the same first candidate dispatch identically, whatever their
later candidates are. -/
theorem c6_only_first_candidate (baseOpts : JsObj) (secure : Bool)
    (s₁ s₂ : String) (h1 : s₁ ≠ "") (h2 : s₂ ≠ "")
    (hc : (candidates s₁).head? = (candidates s₂).head?) :
    dispatchProxy baseOpts secure (some s₁) =
      dispatchProxy baseOpts secure (some s₂) := by
  simp only [dispatchProxy, directiveString, if_neg h1, if_neg h2, hc]

/-- Witness for C6: given `PROXY 1.2.3.4:8080; SOCKS 5.6.7.8:1080`, the
result is exactly the result for `PROXY 1.2.3.4:8080` alone, and the
acted-upon directive is the PROXY one. -/
theorem c6_witness :
    dispatchProxy [] false (some "PROXY 1.2.3.4:8080; SOCKS 5.6.7.8:1080") =
      dispatchProxy [] false (some "PROXY 1.2.3.4:8080") ∧
    dispatchProxy [] false (some "PROXY 1.2.3.4:8080") =
      .ok (.httpProxyAgent (spreadObj [] (urlParseObj "http" "1.2.3.4:8080"))) := by
  refine ⟨c6_only_first_candidate [] false "PROXY 1.2.3.4:8080; SOCKS 5.6.7.8:1080"
    "PROXY 1.2.3.4:8080" (by decide) (by decide) (by decide), by decide⟩

/-- C7. The URL built for the PAC resolver uses scheme `https:` exactly
when the endpoint is secure, and its port component is empty exactly when
the destination port equals the default of the chosen scheme (80 for
http, 443 for https). The hypothesis excludes port 0, which is not a
valid destination port (the legacy url formatter, receiving the falsy
number 0, would also omit it). -/
theorem c7_scheme_and_default_port (secure : Bool) (host : String)
    (port : Nat) (reqPath : String) (hport : port ≠ 0) :
    (buildUrlParts secure host port reqPath).protocol =
      (if secure then "https:" else "http:") ∧
    (portComponent (buildUrlParts secure host port reqPath).port = "" ↔
      port = (if secure then 443 else 80)) := by
  refine ⟨rfl, ?_⟩
  by_cases h : (if secure then 443 else 80 : Nat) = port
  · simp [buildUrlParts, portComponent, h]
  · simp only [buildUrlParts, portComponent, if_neg h, if_neg hport]
    constructor
    · intro he
      have hd := congrArg String.data he
      simp [String.data_append] at hd
    · intro he
      exact absurd he.symm h

/-- Witness for C7: an insecure request to port 8080 keeps an explicit
port component, an insecure request to port 80 omits it. -/
theorem c7_witness :
    ((buildUrlParts false "example.com" 8080 "/a").protocol =
        (if false then "https:" else "http:") ∧
      (portComponent (buildUrlParts false "example.com" 8080 "/a").port = "" ↔
        (8080 : Nat) = (if false then 443 else 80))) ∧
    ((buildUrlParts false "example.com" 80 "/a").protocol =
        (if false then "https:" else "http:") ∧
      (portComponent (buildUrlParts false "example.com" 80 "/a").port = "" ↔
        (80 : Nat) = (if false then 443 else 80))) :=
  ⟨c7_scheme_and_default_port false "example.com" 8080 "/a" (by decide),
    c7_scheme_and_default_port false "example.com" 80 "/a" (by decide)⟩

/-- The post-state of `loadResolver` equals the post-state of its `try`
block: the `catch` clause inspects state but never writes it. -/
theorem loadResolver_state (sha1 : String → String)
    (compile : String → Except JsError Resolver) (fetch : PacFetch)
    (st : AgentState) :
    (loadResolver sha1 compile fetch st).state =
      (loadResolverTry sha1 compile fetch st).state := by
  unfold loadResolver
  rcases loadResolverTry sha1 compile fetch st with ⟨st1, res, evs⟩
  cases res with
  | error e => cases hr : st1.resolver <;> simp [hr, notModifiedGuard_eq_false]
  | ok r => rfl

/-- The event trace of `loadResolver` equals the trace of its `try`
block: the `catch` clause performs no external calls. -/
theorem loadResolver_events (sha1 : String → String)
    (compile : String → Except JsError Resolver) (fetch : PacFetch)
    (st : AgentState) :
    (loadResolver sha1 compile fetch st).events =
      (loadResolverTry sha1 compile fetch st).events := by
  unfold loadResolver
  rcases loadResolverTry sha1 compile fetch st with ⟨st1, res, evs⟩
  cases res with
  | error e => cases hr : st1.resolver <;> simp [hr, notModifiedGuard_eq_false]
  | ok r => rfl

/-- An error thrown inside the `try` block is rethrown by `loadResolver`
(the `catch` guard never accepts). -/
theorem loadResolver_result_error (sha1 : String → String)
    (compile : String → Except JsError Resolver) (fetch : PacFetch)
    (st : AgentState) (e : JsError)
    (h : (loadResolverTry sha1 compile fetch st).result = .error e) :
    (loadResolver sha1 compile fetch st).result = .error e := by
  unfold loadResolver
  rcases ht : loadResolverTry sha1 compile fetch st with ⟨st1, res, evs⟩
  rw [ht] at h
  simp only at h
  subst h
  cases hr : st1.resolver <;> simp [hr, notModifiedGuard_eq_false]

/-- Conversely, an error surfaced by `loadResolver` originates in the
`try` block with the same error value. -/
theorem loadResolverTry_error_of (sha1 : String → String)
    (compile : String → Except JsError Resolver) (fetch : PacFetch)
    (st : AgentState) (e : JsError)
    (h : (loadResolver sha1 compile fetch st).result = .error e) :
    (loadResolverTry sha1 compile fetch st).result = .error e := by
  unfold loadResolver at h
  rcases ht : loadResolverTry sha1 compile fetch st with ⟨st1, res, evs⟩
  rw [ht] at h
  cases res with
  | error e2 =>
    cases hr : st1.resolver with
    | none => simp [hr, notModifiedGuard_eq_false] at h; simp [h]
    | some r => simp [hr, notModifiedGuard_eq_false] at h; simp [h]
  | ok r => simp at h

/-- Inside the `try` block, a thrown error leaves the cached resolver and
fingerprint untouched (only the fetch cache handle may have been
replaced). -/
theorem loadResolverTry_error_preserves (sha1 : String → String)
    (compile : String → Except JsError Resolver) (fetch : PacFetch)
    (st : AgentState) (e : JsError)
    (h : (loadResolverTry sha1 compile fetch st).result = .error e) :
    (loadResolverTry sha1 compile fetch st).state.resolver = st.resolver ∧
    (loadResolverTry sha1 compile fetch st).state.resolverHash =
      st.resolverHash := by
  cases fetch with
  | getUriErr e2 => simp [loadResolverTry, loadPacFile]
  | bodyErr tok e2 => simp [loadResolverTry, loadPacFile]
  | ok tok code =>
    simp only [loadResolverTry, loadPacFile] at h ⊢
    cases hr : st.resolver with
    | none =>
      cases hc : compile code with
      | error e2 => simp [hr, hc]
      | ok r2 => simp [hr, hc] at h
    | some r =>
      by_cases hh : st.resolverHash = sha1 code
      · simp [hr, hh] at h
      · cases hc : compile code with
        | error e2 => simp [hr, hh, hc]
        | ok r2 => simp [hr, hh, hc] at h

/-- C8. Whenever `loadResolver` fails — the fetch rejects, the body read
rejects, or the script evaluator rejects the fetched bytes — the error is
surfaced to the caller as the result of the call (second and third
conjuncts) and the cached state is not mutated: the stored resolver and
fingerprint after any failing call are exactly as before it (first
conjunct), so a previously compiled resolver remains usable by the next
call. -/
theorem c8_failure_preserves_cache (sha1 : String → String)
    (compile : String → Except JsError Resolver) (st : AgentState) :
    (∀ fetch e, (loadResolver sha1 compile fetch st).result = .error e →
      (loadResolver sha1 compile fetch st).state.resolver = st.resolver ∧
      (loadResolver sha1 compile fetch st).state.resolverHash =
        st.resolverHash) ∧
    (∀ e, (loadResolver sha1 compile (.getUriErr e) st).result = .error e) ∧
    (∀ tok code e, (st.resolver = none ∨ st.resolverHash ≠ sha1 code) →
      compile code = .error e →
      (loadResolver sha1 compile (.ok tok code) st).result = .error e) := by
  refine ⟨?_, ?_, ?_⟩
  · intro fetch e h
    have ht := loadResolverTry_error_of sha1 compile fetch st e h
    have hp := loadResolverTry_error_preserves sha1 compile fetch st e ht
    rw [loadResolver_state sha1 compile fetch st]
    exact hp
  · intro e
    apply loadResolver_result_error
    simp [loadResolverTry, loadPacFile]
  · intro tok code e hmiss hc
    apply loadResolver_result_error
    rcases hmiss with hnone | hne
    · simp [loadResolverTry, loadPacFile, hnone, hc]
    · cases hr : st.resolver with
      | none => simp [loadResolverTry, loadPacFile, hr, hc]
      | some r => simp [loadResolverTry, loadPacFile, hr, hne, hc]

/-- Witness for C8: a compile failure on fresh content surfaces the
evaluator error and leaves the cached resolver `1` and fingerprint `1`
untouched. -/
theorem c8_witness :
    (loadResolver lenSha c8CompileFail (.ok 2 "BB") c8St).result =
      .error c8Err ∧
    (loadResolver lenSha c8CompileFail (.ok 2 "BB") c8St).state.resolver =
      c8St.resolver ∧
    (loadResolver lenSha c8CompileFail (.ok 2 "BB") c8St).state.resolverHash =
      c8St.resolverHash := by
  have h := c8_failure_preserves_cache lenSha c8CompileFail c8St
  have he := h.2.2 2 "BB" c8Err (Or.inr (by decide)) rfl
  exact ⟨he, (h.1 (.ok 2 "BB") c8Err he).1, (h.1 (.ok 2 "BB") c8Err he).2⟩

/-- Every `loadResolver` run performs exactly one loader fetch, as its
first external call, followed by at most one compile. -/
theorem loadResolver_events_shape (sha1 : String → String)
    (compile : String → Except JsError Resolver) (fetch : PacFetch)
    (st : AgentState) :
    (loadResolver sha1 compile fetch st).events = [Event.getUriCall] ∨
    (loadResolver sha1 compile fetch st).events =
      [Event.getUriCall, Event.compileCall] := by
  rw [loadResolver_events]
  cases fetch with
  | getUriErr e => left; rfl
  | bodyErr tok e => left; rfl
  | ok tok code =>
    simp only [loadResolverTry, loadPacFile]
    cases hr : st.resolver with
    | none =>
      cases hc : compile code with
      | error e2 => right; simp [hr, hc]
      | ok r2 => right; simp [hr, hc]
    | some r =>
      by_cases hh : st.resolverHash = sha1 code
      · left; simp [hr, hh]
      · cases hc : compile code with
        | error e2 => right; simp [hr, hh, hc]
        | ok r2 => right; simp [hr, hh, hc]

/-- C9 (amended). The spec claims overlapping resolutions share one
outstanding fetch-and-compile (single-flight). The code has no in-flight
marker in the agent state and `loadResolver` consults nothing before
`await this.loadPacFile()`: every call issues its own loader fetch as its
first external action (first conjunct), so two loads of the same source
can be concurrently outstanding. The compile, however, is deduplicated by
content fingerprint rather than shared: the hash computation, the
fingerprint check, the compile and the stores run in one synchronous
block after the awaited fetch, so when the overlapping continuation runs
(necessarily after the first one completed — the event loop does not
interleave synchronous blocks), it sees the stored fingerprint and, the
fetched bytes being identical, reuses the already stored resolver without
a compile of its own (second and third conjuncts). -/
theorem c9_overlap_fetch_not_shared (sha1 : String → String)
    (compile : String → Except JsError Resolver) (st : AgentState)
    (tok tok2 : Nat) (code : String) (r : Resolver)
    (hres : st.resolver = none) (hc : compile code = .ok r) :
    (∀ (fetch : PacFetch) (st2 : AgentState),
      (loadResolver sha1 compile fetch st2).events.head? =
        some Event.getUriCall) ∧
    loadResolver sha1 compile (.ok tok code) st =
      ⟨⟨st.uri, st.opts, some tok, some r, sha1 code⟩, .ok r,
        [.getUriCall, .compileCall]⟩ ∧
    loadResolver sha1 compile (.ok tok2 code)
        ⟨st.uri, st.opts, some tok, some r, sha1 code⟩ =
      ⟨⟨st.uri, st.opts, some tok2, some r, sha1 code⟩, .ok r,
        [.getUriCall]⟩ := by
  refine ⟨?_, ?_, ?_⟩
  · intro fetch st2
    rcases loadResolver_events_shape sha1 compile fetch st2 with h | h <;>
      rw [h] <;> rfl
  · simp [loadResolver, loadResolverTry, loadPacFile, hres, hc]
  · simp [loadResolver, loadResolverTry, loadPacFile]

/-- C9 counterexample. A legal cooperative schedule of two overlapping
`loadResolver` calls on one fresh agent fetching identical content: the
only suspension points are the awaited fetch and body read, so the
scheduler may run the second call up to its fetch before the first
continuation runs — the first two scheduled actions are the two fetch
issues, two loads of the same source concurrently outstanding, refuting
at-most-one-concurrent-load. The per-task projections of the schedule
equal the event traces the embedded code produces: the second
continuation, running on the state the first call left, performs no
compile and returns the same resolver — its reuse comes from the
fingerprint short-circuit on the shared cache, not from sharing a single
outstanding operation, and its fetch was duplicated, not shared. -/
theorem c9_counterexample :
    c9Run.events = [Event.getUriCall, Event.compileCall] ∧
    c9Run2.events = [Event.getUriCall] ∧
    c9Run2.result = c9Run.result ∧
    (c9Interleaving.filter (fun p => p.1 == 0)).map Prod.snd = c9Run.events ∧
    (c9Interleaving.filter (fun p => p.1 == 1)).map Prod.snd = c9Run2.events ∧
    (c9Interleaving.map Prod.snd).take 2 =
      [Event.getUriCall, Event.getUriCall] ∧
    c9Interleaving.countP (fun p => p.2 == Event.getUriCall) = 2 ∧
    c9Interleaving.countP (fun p => p.2 == Event.compileCall) = 1 := by
  refine ⟨?_, ?_, ?_, ?_, ?_, ?_, ?_, ?_⟩ <;> decide

/-- Witness for C9 amended: on a fresh agent, the first call fetches and
compiles; the overlapping second call, continuing on the resulting state
with the same fetched content, fetches again but does not compile and
returns the stored resolver. -/
theorem c9_witness :
    loadResolver lenSha (fun _ => Except.ok ⟨1⟩)
        (.ok 1 "function FindProxyForURL()") c9St =
      ⟨⟨c9St.uri, c9St.opts, some 1, some ⟨1⟩,
          lenSha "function FindProxyForURL()"⟩,
        .ok ⟨1⟩, [.getUriCall, .compileCall]⟩ ∧
    loadResolver lenSha (fun _ => Except.ok ⟨1⟩)
        (.ok 2 "function FindProxyForURL()")
        ⟨c9St.uri, c9St.opts, some 1, some ⟨1⟩,
          lenSha "function FindProxyForURL()"⟩ =
      ⟨⟨c9St.uri, c9St.opts, some 2, some ⟨1⟩,
          lenSha "function FindProxyForURL()"⟩,
        .ok ⟨1⟩, [.getUriCall]⟩ := by
  have h := c9_overlap_fetch_not_shared lenSha (fun _ => Except.ok ⟨1⟩) c9St 1 2
    "function FindProxyForURL()" ⟨1⟩ rfl rfl
  exact ⟨h.2.1, h.2.2⟩

/-- A key bound in neither list position of the right operand of a spread
keeps its value from the left operand. -/
theorem objGet_append_of_not_mem (a b : JsObj) (k : String)
    (hk : k ∉ b.map Prod.fst) :
    objGet (a ++ b) k = objGet a k := by
  unfold objGet
  rw [List.reverse_append, List.find?_append]
  have hb : b.reverse.find? (fun kv => kv.1 == k) = none := by
    rw [List.find?_eq_none]
    intro x hx hpx
    apply hk
    have hx1 : x.1 = k := by simpa using hpx
    rw [← hx1]
    exact List.mem_map_of_mem Prod.fst (List.mem_reverse.mp hx)
  rw [hb]
  simp

/-- The own property names of a parsed proxy URL object are exactly the
twelve legacy `Url` fields. -/
theorem urlParseObj_keys (scheme hostport : String) :
    (urlParseObj scheme hostport).map Prod.fst = urlKeys := rfl

/-- C5 counterexample. The claim says a `PROXY host:port` directive hands
off to the HTTP proxy connector and that no explicitly set baseline
option is silently discarded. For a secure endpoint with directive
`PROXY 1.2.3.4:8080` the code instead hands off to the HTTPS proxy
connector (the connector is chosen by `secureEndpoint`, not by the
directive type, which only picks the scheme of the proxy URL), and the
baseline `auth` option set to `user:pass` is silently overridden by the
`null`-valued `auth` field that legacy `url.parse` puts on every parsed
URL object. -/
theorem c5_counterexample :
    dispatchProxy c5Base true (some "PROXY 1.2.3.4:8080") =
      .ok (.httpsProxyAgent
        (spreadObj c5Base (urlParseObj "http" "1.2.3.4:8080"))) ∧
    objGet c5Base "auth" = some (JsVal.str "user:pass") ∧
    objGet (spreadObj c5Base (urlParseObj "http" "1.2.3.4:8080")) "auth" =
      some JsVal.nullV := by
  refine ⟨?_, ?_, ?_⟩ <;> decide

/-- C5 (amended). For a first candidate `PROXY host:port` or
`HTTPS host:port`, the directive type selects only the scheme of the
proxy endpoint URL (http for `PROXY`, https for `HTTPS`); the connector
is chosen by the security requirement of the destination —
`HttpsProxyAgent` for a secure endpoint, `HttpProxyAgent` otherwise — and
the connector receives the baseline configuration overridden by every
field of the parsed endpoint URL object, while baseline options whose
names are not URL-object fields are preserved by the merge. -/
theorem c5_proxy_https_dispatch (baseOpts : JsObj) (secure : Bool)
    (proxyResult : Option String) (first ty hostport : String)
    (hfirst : (candidates (directiveString proxyResult)).head? = some first)
    (hparts : wsSplit first = [ty, hostport])
    (hty : ty = "PROXY" ∨ ty = "HTTPS") :
    dispatchProxy baseOpts secure proxyResult =
      .ok ((if secure then Outcome.httpsProxyAgent else Outcome.httpProxyAgent)
        (spreadObj baseOpts
          (urlParseObj (if ty = "HTTPS" then "https" else "http") hostport))) ∧
    ∀ k, k ∉ urlKeys →
      objGet (spreadObj baseOpts
        (urlParseObj (if ty = "HTTPS" then "https" else "http") hostport)) k =
      objGet baseOpts k := by
  constructor
  · rcases hty with h | h <;> subst h <;> cases secure <;>
      simp [dispatchProxy, hfirst, hparts]
  · intro k hk
    apply objGet_append_of_not_mem
    rw [urlParseObj_keys]
    exact hk

/-- Witness for C5 amended: an `HTTPS` directive for an insecure endpoint
yields the plain HTTP connector pointed at the https-schemed endpoint,
and the baseline `keepAlive` option survives the merge. -/
theorem c5_witness :
    dispatchProxy [("keepAlive", JsVal.boolV true)] false
        (some "HTTPS proxy.example.com:3129") =
      .ok (.httpProxyAgent (spreadObj [("keepAlive", JsVal.boolV true)]
        (urlParseObj "https" "proxy.example.com:3129"))) ∧
    objGet (spreadObj [("keepAlive", JsVal.boolV true)]
        (urlParseObj "https" "proxy.example.com:3129")) "keepAlive" =
      some (JsVal.boolV true) := by
  have h := c5_proxy_https_dispatch [("keepAlive", JsVal.boolV true)] false
    (some "HTTPS proxy.example.com:3129") "HTTPS proxy.example.com:3129"
    "HTTPS" "proxy.example.com:3129" (by decide) (by decide) (Or.inr rfl)
  exact ⟨by simpa using h.1, (h.2 "keepAlive" (by decide)).trans (by decide)⟩

end PacProxy
